import Mathlib

/-!
Verification of the BFD child-process handling of keepalived
(src/keepalived/bfd/bfd_daemon.c) against its natural-language
specification.

The daemon slice is embedded shallowly:

* The straight-line start/stop/reload sequences (`start_bfd`, `stop_bfd`,
  `reload_bfd_thread`, the worker half of `start_bfd_child`) are embedded
  as the list of observable actions (`Ev`) they perform, in source order,
  together with the exit status when the sequence calls `exit`.
  Compile-time conditionals and fallible library calls become `Config`
  booleans (`_DEBUG_` is taken as not defined, i.e. the normal build, so
  the guarded worker body is present and `keepalived_free_final` absent).
* The signal handlers (`sighup_bfd`, `sigend_bfd`) and the registration
  table built by `bfd_signal_init` are embedded as functions on a small
  loop state, since the claims are about their input/output behaviour.
* The respawn decision (`bfd_respawn_thread`) is a pure function of the
  notification type and the DONT_RESPAWN_BIT.

Library collaborators (scheduler, pidfile, logger) are represented only by
the events of calling them, as the spec specifies them only at their
boundary.
-/

namespace BfdDaemon

/-- Signals the slice manipulates. -/
inductive Sig
  | SIGHUP
  | SIGINT
  | SIGTERM
  | SIGPIPE
  | SIGCHLD
deriving DecidableEq, BEq

/-- The handler functions the slice registers with `signal_set`.
`threadChildHandler` is the scheduler library's `thread_child_handler`
(outside this slice); it is carried only as a registration tag. -/
inductive Handler
  | sighupBfd
  | sigendBfd
  | threadChildHandler
deriving DecidableEq, BEq

/-- The reload-able runtime-state resources allocated by `start_bfd`:
the configuration store `global_data`, the protocol-engine data
`bfd_data`, and the buffer of `alloc_bfd_buffer`. -/
inductive Res
  | globalData
  | bfdData
  | buffer
deriving DecidableEq, BEq

/-- One observable action of the daemon code, in source order.  Each
constructor corresponds to one statement (or one call) of
bfd_daemon.c. -/
inductive Ev
  | seedRandom               -- srand(time(NULL))
  | timerNow                 -- timer = timer_now()
  | setReload                -- SET_RELOAD
  | unsetReload              -- UNSET_RELOAD
  | sigHandlerDestroy        -- signal_handler_destroy()
  | sigHandlerInit           -- signal_handler_init()
  | sigSet (s : Sig) (h : Handler)   -- signal_set(s, h, ...)
  | sigIgnore (s : Sig)      -- signal_ignore(s)
  | pidfileRm                -- pidfile_rm(bfd_pidfile)
  | pidfileWriteOk           -- pidfile_write(bfd_pidfile, getpid()) succeeded
  | pidfileWriteFail         -- pidfile_write(bfd_pidfile, getpid()) failed
  | allocGlobalData          -- global_data = alloc_global_data()
  | freeGlobalData           -- free_global_data(global_data)
  | allocBfdData             -- bfd_data = alloc_bfd_data() (success)
  | freeBfdData              -- free_bfd_data(bfd_data)
  | saveOldBfdData           -- old_bfd_data = bfd_data; bfd_data = NULL
  | freeOldBfdData           -- free_bfd_data(old_bfd_data)
  | allocBfdBuffer           -- alloc_bfd_buffer()
  | freeBfdBuffer            -- free_bfd_buffer()
  | initData                 -- init_data(conf_file, bfd_init_keywords)
  | completeInit             -- bfd_complete_init()
  | dumpData                 -- dump_bfd_data(bfd_data)
  | addDispatcherEvent       -- thread_add_event(master, bfd_dispatcher_init, ...)
  | dispatcherRelease        -- bfd_dispatcher_release(bfd_data)
  | destroyMaster            -- thread_destroy_master(master)
  | makeMaster               -- master = thread_make_master()
  | logMsg (fmt : String)    -- log_message(..., fmt, ...)
  | closeLogFile             -- close_log_file()
  | closeSyslog              -- closelog()
  | freeSyslogIdent          -- FREE_PTR(bfd_syslog_ident)
  | closeStdFd               -- close_std_fd()
  | exitCall (status : Int)  -- exit(status)
  | launchSchedulerEv        -- launch_scheduler()
  | prctlPdeathsig           -- prctl(PR_SET_PDEATHSIG, SIGTERM)
  | clearChildFinderName     -- set_child_finder_name(NULL)
  | clearChildFinder         -- set_child_finder(NULL, ...)
  | setProgType              -- prog_type = PROG_TYPE_BFD
  | makeSyslogIdent          -- bfd_syslog_ident = make_syslog_ident(PROG_BFD)
  | openlogEv                -- openlog(...)
  | openLogFileEv            -- open_log_file(log_file_name, "bfd", ...)
  | freeParentMallocs        -- free_parent_mallocs_startup(true)
  | setSchedPriority         -- sched_setscheduler(..., SCHED_RR, ...)
  | chdirRoot                -- ret = chdir("/")
  | umaskZero                -- umask(0)
deriving DecidableEq, BEq

/-- The run-time switches the embedded sequences branch on: presence of a
log file (`log_file_name`), an instance name or network namespace, the
NO_SYSLOG and DUMP_CONF debug bits, the BFD_SCHED_RT compile flag, and
whether the fallible calls `pidfile_write` and `alloc_bfd_data`
succeed. -/
structure Config where
  logFile : Bool
  instanceName : Bool
  noSyslog : Bool
  dumpConf : Bool
  schedRt : Bool
  pidfileOk : Bool
  allocOk : Bool
deriving DecidableEq

/-- The outcome of running one embedded sequence: the actions performed, in
order, and the status passed to `exit` when the sequence terminated the
process (`none` when it returned normally). -/
structure RunResult where
  events : List Ev
  exited : Option Int
deriving DecidableEq

/-- EXIT_SUCCESS. -/
def EXIT_SUCCESS : Int := 0

/-- Modelled from the spec: `KEEPALIVED_EXIT_FATAL` is defined in main.h,
which is not under src/; the spec (§6) fixes only that allocation/startup
failure exits with a non-zero fatal code.  Its concrete value is not used
by any claim. -/
def KEEPALIVED_EXIT_FATAL : Int := 1

/-- Log format strings of bfd_daemon.c, verbatim. -/
def stoppedFmt : String := "Stopped"

def reloadFinishedFmt : String := "Reload finished in %li usec"

def pidfileFailFmt : String := "BFD child process: cannot write pidfile"

def respawningFmt : String := "BFD child process(%d) died: Respawning"

def exitingFmt : String := "BFD child process(%d) died: Exiting"

/-- `stop_bfd(status)` (bfd_daemon.c lines 61-99), as its action trace:
signal_handler_destroy; pidfile_rm; free_global_data;
bfd_dispatcher_release; free_bfd_data; free_bfd_buffer;
thread_destroy_master; log "Stopped"; close_log_file when a log file is
configured; closelog; FREE_PTR(bfd_syslog_ident); close_std_fd;
exit(status). -/
def stop_bfd (c : Config) (status : Int) : RunResult :=
  { events :=
      [Ev.sigHandlerDestroy, Ev.pidfileRm, Ev.freeGlobalData,
       Ev.dispatcherRelease, Ev.freeBfdData, Ev.freeBfdBuffer,
       Ev.destroyMaster, Ev.logMsg stoppedFmt]
      ++ (if c.logFile then [Ev.closeLogFile] else [])
      ++ [Ev.closeSyslog, Ev.freeSyslogIdent, Ev.closeStdFd,
          Ev.exitCall status],
    exited := some status }

/-- `start_bfd()` (bfd_daemon.c lines 116-137): srand; allocate
global_data; allocate bfd_data, calling `stop_bfd(KEEPALIVED_EXIT_FATAL)`
on failure; allocate the buffer; parse the configuration; complete
initialization; dump the data when DUMP_CONF_BIT is set; schedule
`bfd_dispatcher_init` on the master. -/
def start_bfd (c : Config) : RunResult :=
  if c.allocOk then
    { events :=
        [Ev.seedRandom, Ev.allocGlobalData, Ev.allocBfdData,
         Ev.allocBfdBuffer, Ev.initData, Ev.completeInit]
        ++ (if c.dumpConf then [Ev.dumpData] else [])
        ++ [Ev.addDispatcherEvent],
      exited := none }
  else
    let s := stop_bfd c KEEPALIVED_EXIT_FATAL
    { events := [Ev.seedRandom, Ev.allocGlobalData] ++ s.events,
      exited := s.exited }

/-- The actions of `bfd_signal_init()` (bfd_daemon.c lines 157-165):
signal_handler_init, then SIGHUP -> sighup_bfd, SIGINT -> sigend_bfd,
SIGTERM -> sigend_bfd, and SIGPIPE ignored. -/
def bfd_signal_init_events : List Ev :=
  [Ev.sigHandlerInit,
   Ev.sigSet Sig.SIGHUP Handler.sighupBfd,
   Ev.sigSet Sig.SIGINT Handler.sigendBfd,
   Ev.sigSet Sig.SIGTERM Handler.sigendBfd,
   Ev.sigIgnore Sig.SIGPIPE]

/-- `reload_bfd_thread` (bfd_daemon.c lines 168-201), as its action trace:
timer_now; SET_RELOAD; signal_handler_destroy; bfd_dispatcher_release;
thread_destroy_master; thread_make_master; free_global_data;
free_bfd_buffer; save old bfd_data (bfd_data := NULL);
signal_set(SIGCHLD, thread_child_handler); start_bfd(); then - when
start_bfd did not exit - free_bfd_data(old_bfd_data); UNSET_RELOAD; the
elapsed-time log line. -/
def reload_bfd_thread (c : Config) : RunResult :=
  let pre : List Ev :=
    [Ev.timerNow, Ev.setReload, Ev.sigHandlerDestroy,
     Ev.dispatcherRelease, Ev.destroyMaster, Ev.makeMaster,
     Ev.freeGlobalData, Ev.freeBfdBuffer, Ev.saveOldBfdData,
     Ev.sigSet Sig.SIGCHLD Handler.threadChildHandler]
  let sb := start_bfd c
  match sb.exited with
  | some st => { events := pre ++ sb.events, exited := some st }
  | none =>
    { events := pre ++ sb.events
        ++ [Ev.freeOldBfdData, Ev.unsetReload, Ev.logMsg reloadFinishedFmt],
      exited := none }

/-- The worker (child) half of `start_bfd_child()` (bfd_daemon.c lines
232-343), from the point the fork returned 0: prctl(PR_SET_PDEATHSIG);
clear inherited child finders; prog_type := BFD; build the syslog ident
when an instance name or network namespace is set; openlog unless
NO_SYSLOG_BIT; open the log file when configured; signal_handler_destroy;
free_parent_mallocs_startup; raise scheduling priority when BFD_SCHED_RT;
write the pidfile, logging and exiting with status 0 on failure;
signal_handler_destroy; destroy and remake the master; chdir("/") (a
failure only logs and is not modelled as a branch); umask(0);
UNSET_RELOAD; bfd_signal_init(); start_bfd(); launch_scheduler();
stop_bfd(EXIT_SUCCESS). -/
def start_bfd_child_worker (c : Config) : RunResult :=
  let pre : List Ev :=
    [Ev.prctlPdeathsig, Ev.clearChildFinderName, Ev.clearChildFinder,
     Ev.setProgType]
    ++ (if c.instanceName then [Ev.makeSyslogIdent] else [])
    ++ (if !c.noSyslog then [Ev.openlogEv] else [])
    ++ (if c.logFile then [Ev.openLogFileEv] else [])
    ++ [Ev.sigHandlerDestroy, Ev.freeParentMallocs]
    ++ (if c.schedRt then [Ev.setSchedPriority] else [])
  if !c.pidfileOk then
    { events := pre ++ [Ev.pidfileWriteFail, Ev.logMsg pidfileFailFmt,
                        Ev.exitCall 0],
      exited := some 0 }
  else
    let mid : List Ev := pre
      ++ [Ev.pidfileWriteOk, Ev.sigHandlerDestroy, Ev.destroyMaster,
          Ev.makeMaster, Ev.chdirRoot, Ev.umaskZero, Ev.unsetReload]
      ++ bfd_signal_init_events
    let sb := start_bfd c
    match sb.exited with
    | some st => { events := mid ++ sb.events, exited := some st }
    | none =>
      let stp := stop_bfd c EXIT_SUCCESS
      { events := mid ++ sb.events ++ [Ev.launchSchedulerEv] ++ stp.events,
        exited := stp.exited }

/-- A fixed configuration for concrete evaluations: no log file, no
instance name, syslog on, no configuration dump, no realtime scheduling,
pidfile write and bfd_data allocation succeed. -/
def cfg0 : Config :=
  { logFile := false, instanceName := false, noSyslog := false,
    dumpConf := false, schedRt := false, pidfileOk := true, allocOk := true }

/-! ### Trace observations -/

/-- The index (first occurrence) of an event in a trace. -/
def evIdx (evs : List Ev) (e : Ev) : Nat :=
  evs.findIdx (fun x => x == e)

/-- Whether the first occurrence of `a` precedes the first occurrence of
`b` in the trace. -/
def evBefore (evs : List Ev) (a b : Ev) : Bool :=
  Nat.blt (evIdx evs a) (evIdx evs b)

/-- The resource an event allocates, if any. -/
def allocOf : Ev → Option Res
  | Ev.allocGlobalData => some Res.globalData
  | Ev.allocBfdData => some Res.bfdData
  | Ev.allocBfdBuffer => some Res.buffer
  | _ => none

/-- The resource an event releases, if any.  Both `free_bfd_data` calls
(on the current and on the saved old generation) release a bfd_data
generation; saving the old pointer itself releases nothing. -/
def freeOf : Ev → Option Res
  | Ev.freeGlobalData => some Res.globalData
  | Ev.freeBfdData => some Res.bfdData
  | Ev.freeOldBfdData => some Res.bfdData
  | Ev.freeBfdBuffer => some Res.buffer
  | _ => none

/-- The sequence of resource acquisitions in a trace. -/
def acquireSeq (evs : List Ev) : List Res := evs.filterMap allocOf

/-- The sequence of resource releases in a trace. -/
def releaseSeq (evs : List Ev) : List Res := evs.filterMap freeOf

/-- The number of live generations of resource `r` after the trace,
starting from one live generation (the state of a running worker). -/
def liveGens (r : Res) (evs : List Ev) : Int :=
  1 + evs.foldl
    (fun n e =>
      n + (if allocOf e == some r then 1 else 0)
        - (if freeOf e == some r then 1 else 0))
    0

/-- Whether resource `r` has at least one live generation at every point
of the trace. -/
def resLiveAlways (r : Res) (evs : List Ev) : Bool :=
  (List.range (evs.length + 1)).all
    (fun i => decide (1 ≤ liveGens r (evs.take i)))

/-- Whether every runtime-state resource has at least one live generation
at every point of the trace ("no window with zero live generations"). -/
def noZeroGenWindow (evs : List Ev) : Bool :=
  resLiveAlways Res.globalData evs
  && resLiveAlways Res.bfdData evs
  && resLiveAlways Res.buffer evs

/-- Whether an event reads or writes the pidfile. -/
def touchesPidfile : Ev → Bool
  | Ev.pidfileRm => true
  | Ev.pidfileWriteOk => true
  | Ev.pidfileWriteFail => true
  | _ => false

/-- Effect of one event on the pidfile content (`n` is the process id a
successful `pidfile_write` records; a failed write leaves the file as it
was). -/
def pidfileStep (n : Nat) (p : Option Nat) (e : Ev) : Option Nat :=
  match e with
  | Ev.pidfileRm => none
  | Ev.pidfileWriteOk => some n
  | _ => p

/-- The pidfile content after a trace, starting from content `p`. -/
def pidfileAfter (p : Option Nat) (n : Nat) (evs : List Ev) : Option Nat :=
  evs.foldl (pidfileStep n) p

/-- Effect of one event on the process-wide reloading flag
(SET_RELOAD / UNSET_RELOAD). -/
def reloadStep (b : Bool) (e : Ev) : Bool :=
  match e with
  | Ev.setReload => true
  | Ev.unsetReload => false
  | _ => b

/-- The reloading flag after a trace, starting from flag `b`. -/
def reloadFlagAfter (b : Bool) (evs : List Ev) : Bool :=
  evs.foldl reloadStep b

/-! ### Signal registration table -/

/-- The disposition of one signal: no registration (OS default), a
registered handler, or explicitly ignored. -/
inductive SigDisp
  | unregistered
  | withHandler (h : Handler)
  | ignored
deriving DecidableEq, BEq

/-- The registration state of the five signals the slice manipulates. -/
structure SigTable where
  onHup : SigDisp
  onInt : SigDisp
  onTerm : SigDisp
  onPipe : SigDisp
  onChld : SigDisp
deriving DecidableEq, BEq

/-- The table with every signal unregistered. -/
def emptyTable : SigTable :=
  { onHup := SigDisp.unregistered, onInt := SigDisp.unregistered,
    onTerm := SigDisp.unregistered, onPipe := SigDisp.unregistered,
    onChld := SigDisp.unregistered }

/-- Look one signal up in the table. -/
def lookupSig (t : SigTable) : Sig → SigDisp
  | Sig.SIGHUP => t.onHup
  | Sig.SIGINT => t.onInt
  | Sig.SIGTERM => t.onTerm
  | Sig.SIGPIPE => t.onPipe
  | Sig.SIGCHLD => t.onChld

/-- Set one signal's disposition. -/
def setSig (t : SigTable) (s : Sig) (d : SigDisp) : SigTable :=
  match s with
  | Sig.SIGHUP => { t with onHup := d }
  | Sig.SIGINT => { t with onInt := d }
  | Sig.SIGTERM => { t with onTerm := d }
  | Sig.SIGPIPE => { t with onPipe := d }
  | Sig.SIGCHLD => { t with onChld := d }

/-- Effect of one event on the registration table:
`signal_handler_destroy` and `signal_handler_init` both leave every
signal unregistered (destroy resets dispositions and closes the signal
pipe; init starts from a fresh table); `signal_set` and `signal_ignore`
set one disposition. -/
def sigTableStep (t : SigTable) (e : Ev) : SigTable :=
  match e with
  | Ev.sigHandlerDestroy => emptyTable
  | Ev.sigHandlerInit => emptyTable
  | Ev.sigSet s h => setSig t s (SigDisp.withHandler h)
  | Ev.sigIgnore s => setSig t s SigDisp.ignored
  | _ => t

/-- The registration table after a trace, starting from table `t`. -/
def sigTableAfter (t : SigTable) (evs : List Ev) : SigTable :=
  evs.foldl sigTableStep t

/-- The table installed by `bfd_signal_init()`. -/
def bfdSignalTable : SigTable :=
  sigTableAfter emptyTable bfd_signal_init_events

/-! ### Signal handler semantics -/

/-- Control events queued on the run loop by the handlers.
`reloadEvent` is the zero-delay `thread_add_event` of `reload_bfd_thread`;
`terminateEvent` is `thread_add_terminate_event`. -/
inductive QEv
  | reloadEvent
  | terminateEvent
deriving DecidableEq, BEq

/-- The worker state a handler can observe: whether the run loop master
exists (and its identity), the process-wide reloading flag, the pidfile
content, and the run loop's event queue. -/
structure LoopSt where
  master : Option Nat
  reloading : Bool
  pidfile : Option Nat
  queue : List QEv
deriving DecidableEq

/-- `thread_add_event(master, reload_bfd_thread, NULL, 0)`: append the
event to the run loop's queue. -/
def thread_add_event (st : LoopSt) (e : QEv) : LoopSt :=
  { st with queue := st.queue ++ [e] }

/-- `thread_add_terminate_event(master)`: append a terminate event. -/
def thread_add_terminate_event (st : LoopSt) : LoopSt :=
  { st with queue := st.queue ++ [QEv.terminateEvent] }

/-- `sighup_bfd` (bfd_daemon.c lines 140-145): queue a reload event (the
source does not test `master` here). -/
def sighup_bfd (st : LoopSt) : LoopSt :=
  thread_add_event st QEv.reloadEvent

/-- `sigend_bfd` (bfd_daemon.c lines 148-154): queue a terminate event
only when the master exists. -/
def sigend_bfd (st : LoopSt) : LoopSt :=
  match st.master with
  | some _ => thread_add_terminate_event st
  | none => st

/-- Run a registered handler.  `thread_child_handler` is scheduler
library code outside this slice; routing to it is modelled, its body is
not (identity here; no claim depends on it). -/
def runHandler : Handler → LoopSt → LoopSt
  | Handler.sighupBfd, st => sighup_bfd st
  | Handler.sigendBfd, st => sigend_bfd st
  | Handler.threadChildHandler, st => st

/-- Deliver a signal through the registration table: a registered handler
runs, an ignored signal leaves the state unchanged, an unregistered
signal falls to the OS default action, outside this model (`none`). -/
def dispatchSig (t : SigTable) (s : Sig) (st : LoopSt) : Option LoopSt :=
  match lookupSig t s with
  | SigDisp.withHandler h => some (runHandler h st)
  | SigDisp.ignored => some st
  | SigDisp.unregistered => none

/-! ### Respawn decision -/

/-- The type of a child notification delivered to `bfd_respawn_thread`:
the periodic RESPAWN_TIMER re-arm tick (`THREAD_CHILD_TIMEOUT`) or an
actual child death. -/
inductive ThreadType
  | childTimeout
  | childTerminated
deriving DecidableEq, BEq

/-- The action `bfd_respawn_thread` takes: re-register the watcher
(`thread_add_child` with RESPAWN_TIMER), respawn (log "Respawning" and
call `start_bfd_child`), or terminate the supervisor (log "Exiting" and
`raise(SIGTERM)`). -/
inductive RespawnAct
  | rearm (pid : Nat)
  | respawn (pid : Nat)
  | exitSupervisor (pid : Nat)
deriving DecidableEq, BEq

/-- `bfd_respawn_thread` (bfd_daemon.c lines 204-230): a timeout tick
re-arms; otherwise DONT_RESPAWN_BIT decides between respawning and
raising SIGTERM. -/
def bfd_respawn_thread (tt : ThreadType) (dontRespawn : Bool)
    (pid : Nat) : RespawnAct :=
  match tt with
  | ThreadType.childTimeout => RespawnAct.rearm pid
  | ThreadType.childTerminated =>
    if !dontRespawn then RespawnAct.respawn pid
    else RespawnAct.exitSupervisor pid

/-- The log format string the action emits, if any. -/
def actLogFmt : RespawnAct → Option String
  | RespawnAct.rearm _ => none
  | RespawnAct.respawn _ => some respawningFmt
  | RespawnAct.exitSupervisor _ => some exitingFmt

/-- The signal the action raises on the supervisor, if any. -/
def actRaise : RespawnAct → Option Sig
  | RespawnAct.exitSupervisor _ => some Sig.SIGTERM
  | _ => none

/-- Whether the action calls `start_bfd_child` (attempts a respawn). -/
def actStartsChild : RespawnAct → Bool
  | RespawnAct.respawn _ => true
  | _ => false

/-- Modelled from the spec: the `SupervisorState` enum of §3.  The
supervisor-side state machine lives in the parent main/scheduler code,
which is not under src/. -/
inductive SupervisorState
  | STARTING
  | RUNNING
  | RELOADING
  | RESPAWNING
  | STOPPING
  | STOPPED
deriving DecidableEq, BEq

/-- Modelled from the spec: §7(c) "a death observed during intentional
shutdown is swallowed" — the supervisor machinery outside src/ drops a
child notification once the supervisor is STOPPING; any other delivered
notification reaches `bfd_respawn_thread` (embedded from the source). -/
def supervisorOnChildNotification (st : SupervisorState) (tt : ThreadType)
    (dontRespawn : Bool) (pid : Nat) : Option RespawnAct :=
  if st = SupervisorState.STOPPING then none
  else some (bfd_respawn_thread tt dontRespawn pid)

/-- Whether a (possibly swallowed) notification leads to a respawn
attempt. -/
def attemptsStart : Option RespawnAct → Bool
  | some a => actStartsChild a
  | none => false

/-- Modelled from the spec: the parent supervisor's exit path after a
raised SIGTERM is in main.c, not under src/; the spec fixes only that the
resulting exit status is non-zero. -/
def supervisorSigtermExitStatus : Int := 1

/-! ### String containment (for the log-message claims) -/

/-- Whether `needle` occurs as a contiguous run inside the character
list. -/
def hasInfix (needle : List Char) : List Char → Bool
  | [] => needle.isEmpty
  | c :: rest => needle.isPrefixOf (c :: rest) || hasInfix needle rest

/-- Whether `needle` occurs inside `hay`. -/
def strContains (hay needle : String) : Bool :=
  hasInfix needle.data hay.data

/-! ### The stop-sequence order predicates (claim C4) -/

/-- The acquisition order of a completed `start_bfd` (resource order as
claimed by the spec's STARTING sequence). -/
def fullStartAcquires (c : Config) : List Res :=
  acquireSeq (start_bfd { c with allocOk := true }).events

/-- The stop-sequence ordering exactly as claim C4 states it: signal
routing unregistered first, then the pidfile removed, then the runtime
state released in the REVERSE of the acquisition order of `start_bfd`,
then the run loop destroyed, then identity resources (log file, syslog)
released, then low-numbered file descriptors closed. -/
def stopClaimedOrder (c : Config) (status : Int) : Bool :=
  let evs := (stop_bfd c status).events
  (evs.head? == some Ev.sigHandlerDestroy)
  && evBefore evs Ev.sigHandlerDestroy Ev.pidfileRm
  && (releaseSeq evs == (fullStartAcquires c).reverse)
  && evBefore evs Ev.pidfileRm Ev.freeGlobalData
  && evBefore evs Ev.pidfileRm Ev.freeBfdData
  && evBefore evs Ev.pidfileRm Ev.freeBfdBuffer
  && evBefore evs Ev.freeGlobalData Ev.destroyMaster
  && evBefore evs Ev.freeBfdData Ev.destroyMaster
  && evBefore evs Ev.freeBfdBuffer Ev.destroyMaster
  && evBefore evs Ev.destroyMaster Ev.closeSyslog
  && (!c.logFile
      || (evBefore evs Ev.destroyMaster Ev.closeLogFile
          && evBefore evs Ev.closeLogFile Ev.closeStdFd))
  && evBefore evs Ev.closeSyslog Ev.closeStdFd

/-- The stop-sequence ordering with the one correction the code forces:
runtime state is released in the SAME order as it was acquired
(configuration store, then protocol-engine data, then buffers), not the
reverse; every other step of claim C4 is unchanged. -/
def stopSameOrder (c : Config) (status : Int) : Bool :=
  let evs := (stop_bfd c status).events
  (evs.head? == some Ev.sigHandlerDestroy)
  && evBefore evs Ev.sigHandlerDestroy Ev.pidfileRm
  && (releaseSeq evs == fullStartAcquires c)
  && evBefore evs Ev.pidfileRm Ev.freeGlobalData
  && evBefore evs Ev.pidfileRm Ev.freeBfdData
  && evBefore evs Ev.pidfileRm Ev.freeBfdBuffer
  && evBefore evs Ev.freeGlobalData Ev.destroyMaster
  && evBefore evs Ev.freeBfdData Ev.destroyMaster
  && evBefore evs Ev.freeBfdBuffer Ev.destroyMaster
  && evBefore evs Ev.destroyMaster Ev.closeSyslog
  && (!c.logFile
      || (evBefore evs Ev.destroyMaster Ev.closeLogFile
          && evBefore evs Ev.closeLogFile Ev.closeStdFd))
  && evBefore evs Ev.closeSyslog Ev.closeStdFd

/-! ## Helper lemmas -/

/-- A trace with no pidfile events leaves the pidfile content unchanged. -/
theorem pidfile_preserved (p : Option Nat) (n : Nat) (evs : List Ev)
    (h : evs.all (fun e => !touchesPidfile e) = true) :
    pidfileAfter p n evs = p := by
  induction evs generalizing p with
  | nil => rfl
  | cons e rest ih =>
    rw [List.all_cons, Bool.and_eq_true] at h
    have he : touchesPidfile e = false := by
      have := h.1
      simpa using this
    have hstep : pidfileStep n p e = p := by
      cases e <;> first | rfl | exact absurd he (by decide)
    calc pidfileAfter p n (e :: rest)
        = pidfileAfter (pidfileStep n p e) n rest := rfl
      _ = pidfileAfter p n rest := by rw [hstep]
      _ = p := ih p h.2

/-! ## The claims -/

/-- Claim C1: for every child notification delivered to the watchdog, a
respawn (a call to `start_bfd_child`) is attempted if and only if the
respawn policy is enabled (DONT_RESPAWN_BIT clear), the notification is
not a re-arm timeout tick, and the supervisor is not STOPPING.  The
STOPPING gate is the spec-modelled swallowing of deaths during intentional
shutdown; the rest is `bfd_respawn_thread` from the source. -/
theorem c1_respawn_iff (st : SupervisorState) (tt : ThreadType)
    (d : Bool) (pid : Nat) :
    attemptsStart (supervisorOnChildNotification st tt d pid)
      = (!d && (tt != ThreadType.childTimeout)
          && (st != SupervisorState.STOPPING)) := by
  cases st <;> cases tt <;> cases d <;> rfl

/-- Claim C2, counterexample: on a concrete completed reload the claimed
property "no point with zero live generations of runtime state" is false:
the configuration store `global_data` is freed (event index 6) before the
new generation is allocated inside `start_bfd`, so it has zero live
generations there. -/
theorem c2_counterexample :
    noZeroGenWindow (reload_bfd_thread cfg0).events = false
    ∧ resLiveAlways Res.globalData (reload_bfd_thread cfg0).events = false
    ∧ liveGens Res.globalData ((reload_bfd_thread cfg0).events.take 7) = 0
    ∧ evBefore (reload_bfd_thread cfg0).events
        Ev.freeGlobalData Ev.allocGlobalData = true := by
  decide

/-- Claim C2 as amended: during a completed reload only the
protocol-engine data `bfd_data` keeps the previous generation live until
the new one is constructed (the old pointer is saved and freed only after
`start_bfd` allocates the new data); the configuration store
`global_data` and the buffers are released before the new generation is
allocated, so each of them has a window with zero live generations. -/
theorem c2_generation_overlap_amended (lf inm nsl dc srt pk : Bool) :
    resLiveAlways Res.bfdData
        (reload_bfd_thread ⟨lf, inm, nsl, dc, srt, pk, true⟩).events = true
    ∧ evBefore (reload_bfd_thread ⟨lf, inm, nsl, dc, srt, pk, true⟩).events
        Ev.allocBfdData Ev.freeOldBfdData = true
    ∧ evBefore (reload_bfd_thread ⟨lf, inm, nsl, dc, srt, pk, true⟩).events
        Ev.freeGlobalData Ev.allocGlobalData = true
    ∧ evBefore (reload_bfd_thread ⟨lf, inm, nsl, dc, srt, pk, true⟩).events
        Ev.freeBfdBuffer Ev.allocBfdBuffer = true := by
  cases lf <;> cases inm <;> cases nsl <;> cases dc <;> cases srt <;>
    cases pk <;> exact ⟨by decide, by decide, by decide, by decide⟩

/-- Claim C3: when the initial pidfile write fails in the worker, the
process logs the failure and exits with status 0, and no new run-loop
master is ever created in the worker before exiting. -/
theorem c3_pidfile_fail_exit0 (lf inm nsl dc srt ak : Bool) :
    (start_bfd_child_worker ⟨lf, inm, nsl, dc, srt, false, ak⟩).exited
        = some 0
    ∧ (start_bfd_child_worker ⟨lf, inm, nsl, dc, srt, false, ak⟩).events.contains
        Ev.makeMaster = false
    ∧ (start_bfd_child_worker ⟨lf, inm, nsl, dc, srt, false, ak⟩).events.contains
        (Ev.logMsg pidfileFailFmt) = true
    ∧ (start_bfd_child_worker ⟨lf, inm, nsl, dc, srt, false, ak⟩).events.getLast?
        = some (Ev.exitCall 0) := by
  cases lf <;> cases inm <;> cases nsl <;> cases dc <;> cases srt <;>
    cases ak <;> exact ⟨rfl, by decide, by decide, by decide⟩

/-- Claim C4, counterexample: `stop_bfd` does NOT release runtime state in
the reverse of the acquisition order of `start_bfd`: it releases
`global_data`, then `bfd_data`, then the buffers — the same order in
which `start_bfd` acquires them — so the claimed ordering is false on a
concrete stop. -/
theorem c4_counterexample :
    stopClaimedOrder cfg0 0 = false
    ∧ releaseSeq (stop_bfd cfg0 0).events
        = [Res.globalData, Res.bfdData, Res.buffer]
    ∧ (fullStartAcquires cfg0).reverse
        = [Res.buffer, Res.bfdData, Res.globalData] := by
  decide

/-- Claim C4 as amended: the stop sequence unregisters signal routing
first, then removes the pidfile, then releases runtime state in the SAME
order it was acquired in `start_bfd` (configuration store,
protocol-engine data, buffers), then destroys the run loop, then releases
identity resources (log file, syslog), then closes low-numbered file
descriptors, and finally exits with the supplied status. -/
theorem c4_stop_order_amended (lf inm nsl dc srt pk ak : Bool)
    (status : Int) :
    stopSameOrder ⟨lf, inm, nsl, dc, srt, pk, ak⟩ status = true
    ∧ (stop_bfd ⟨lf, inm, nsl, dc, srt, pk, ak⟩ status).events.getLast?
        = some (Ev.exitCall status)
    ∧ (stop_bfd ⟨lf, inm, nsl, dc, srt, pk, ak⟩ status).exited
        = some status := by
  cases lf <;> cases dc <;> exact ⟨rfl, rfl, rfl⟩

/-- Claim C5: every handler installed by `bfd_signal_init` only enqueues
an event on the run loop and returns, mutating no other state: SIGHUP
queues a reload event, SIGINT and SIGTERM queue a terminate event (when a
master exists), and SIGPIPE is explicitly ignored and never escalates to
termination (delivery leaves the state unchanged). -/
theorem c5_handlers_enqueue_only (st : LoopSt) :
    lookupSig bfdSignalTable Sig.SIGHUP
        = SigDisp.withHandler Handler.sighupBfd
    ∧ lookupSig bfdSignalTable Sig.SIGINT
        = SigDisp.withHandler Handler.sigendBfd
    ∧ lookupSig bfdSignalTable Sig.SIGTERM
        = SigDisp.withHandler Handler.sigendBfd
    ∧ lookupSig bfdSignalTable Sig.SIGPIPE = SigDisp.ignored
    ∧ dispatchSig bfdSignalTable Sig.SIGHUP st
        = some { st with queue := st.queue ++ [QEv.reloadEvent] }
    ∧ dispatchSig bfdSignalTable Sig.SIGINT st
        = (if st.master.isSome then
            some { st with queue := st.queue ++ [QEv.terminateEvent] }
          else some st)
    ∧ dispatchSig bfdSignalTable Sig.SIGTERM st
        = (if st.master.isSome then
            some { st with queue := st.queue ++ [QEv.terminateEvent] }
          else some st)
    ∧ dispatchSig bfdSignalTable Sig.SIGPIPE st = some st := by
  obtain ⟨m, r, p, q⟩ := st
  refine ⟨rfl, rfl, rfl, rfl, rfl, ?_, ?_, rfl⟩ <;> cases m <;> rfl

/-- Claim C6 (code evidence): after one completed reload the registration
table holds a handler only for SIGCHLD; the worker's own handlers
(SIGHUP reload, SIGINT/SIGTERM terminate, SIGPIPE ignore) are NOT
re-established — `bfd_signal_init` is never run during the reload
sequence, contradicting the spec's requirement that all handlers are
re-established after a full teardown/rebuild of the run loop. -/
theorem c6_reload_drops_handlers :
    sigTableAfter bfdSignalTable (reload_bfd_thread cfg0).events
      = { onHup := SigDisp.unregistered, onInt := SigDisp.unregistered,
          onTerm := SigDisp.unregistered, onPipe := SigDisp.unregistered,
          onChld := SigDisp.withHandler Handler.threadChildHandler }
    ∧ (reload_bfd_thread cfg0).events.contains Ev.sigHandlerInit = false
    ∧ (reload_bfd_thread cfg0).events.contains
        (Ev.sigSet Sig.SIGHUP Handler.sighupBfd) = false := by
  decide

/-- Claim C7: when the worker dies and DONT_RESPAWN_BIT is set, the
watchdog raises SIGTERM on the supervisor (whose exit status on that path
is non-zero, per the spec's model of the parent), the emitted log format
contains "Exiting" and not "Respawning", and `start_bfd_child` is not
called. -/
theorem c7_norespawn_exits (pid : Nat) :
    bfd_respawn_thread ThreadType.childTerminated true pid
      = RespawnAct.exitSupervisor pid
    ∧ actRaise (bfd_respawn_thread ThreadType.childTerminated true pid)
        = some Sig.SIGTERM
    ∧ actStartsChild (bfd_respawn_thread ThreadType.childTerminated true pid)
        = false
    ∧ actLogFmt (bfd_respawn_thread ThreadType.childTerminated true pid)
        = some exitingFmt
    ∧ strContains exitingFmt "Exiting" = true
    ∧ strContains exitingFmt "Respawning" = false
    ∧ supervisorSigtermExitStatus ≠ 0 :=
  ⟨rfl, rfl, rfl, rfl, by decide, by decide, by decide⟩

/-- Claim C8: a completed reload performs no pidfile operation at all, so
the pidfile holds the same process id after the reload as before; the
elapsed-time log line is emitted, the sequence returns (does not exit),
and the reloading flag ends cleared. -/
theorem c8_reload_preserves_pidfile (lf inm nsl dc srt pk b : Bool)
    (p : Option Nat) (n : Nat) :
    (reload_bfd_thread ⟨lf, inm, nsl, dc, srt, pk, true⟩).events.all
        (fun e => !touchesPidfile e) = true
    ∧ pidfileAfter p n
        (reload_bfd_thread ⟨lf, inm, nsl, dc, srt, pk, true⟩).events = p
    ∧ reloadFlagAfter b
        (reload_bfd_thread ⟨lf, inm, nsl, dc, srt, pk, true⟩).events = false
    ∧ (reload_bfd_thread ⟨lf, inm, nsl, dc, srt, pk, true⟩).events.contains
        (Ev.logMsg reloadFinishedFmt) = true
    ∧ (reload_bfd_thread ⟨lf, inm, nsl, dc, srt, pk, true⟩).exited = none := by
  cases lf <;> cases inm <;> cases nsl <;> cases dc <;> cases srt <;>
    cases pk <;> cases b <;>
    exact ⟨by decide, pidfile_preserved _ _ _ (by decide), by decide,
           by decide, rfl⟩

/-- Claim C9: delivering a terminate signal when no run-loop master
exists is a no-op — `sigend_bfd` queues nothing and leaves the state
exactly as it was. -/
theorem c9_sigend_no_master_noop (r : Bool) (p : Option Nat)
    (q : List QEv) :
    sigend_bfd { master := none, reloading := r, pidfile := p, queue := q }
      = { master := none, reloading := r, pidfile := p, queue := q } := rfl

/-- Claim C10: every worker that proceeds past the pidfile claim executes
UNSET_RELOAD before signal initialization and before `start_bfd`, and
whatever the reloading flag inherited from a predecessor that died
mid-reload, the flag is already cleared when signal initialization
begins. -/
theorem c10_worker_reload_flag_cleared (lf inm nsl dc srt ak b : Bool) :
    (start_bfd_child_worker ⟨lf, inm, nsl, dc, srt, true, ak⟩).events.contains
        Ev.unsetReload = true
    ∧ evBefore (start_bfd_child_worker ⟨lf, inm, nsl, dc, srt, true, ak⟩).events
        Ev.unsetReload Ev.sigHandlerInit = true
    ∧ evBefore (start_bfd_child_worker ⟨lf, inm, nsl, dc, srt, true, ak⟩).events
        Ev.unsetReload Ev.seedRandom = true
    ∧ reloadFlagAfter b
        ((start_bfd_child_worker ⟨lf, inm, nsl, dc, srt, true, ak⟩).events.takeWhile
          (fun e => !(e == Ev.sigHandlerInit))) = false := by
  cases lf <;> cases inm <;> cases nsl <;> cases dc <;> cases srt <;>
    cases ak <;> cases b <;> decide

end BfdDaemon
